import Mathlib

/-!
Shallow embedding of the PyVCAM `Camera` class (src/camera.py) for an opened
camera.  Python object mutation is modelled by explicit state passing; a
Python method that can raise returns `CamState × Option CamErr` (or a richer
record) where the returned state is the state of the object at the moment the
method returned or raised — Python does not roll back partial mutation on an
exception, and neither does this model.  Machine integers are `Int`/`Nat`;
Python `int(width / bin)` (float true division followed by truncation toward
zero) is `Int.tdiv`.  Calls into the native `pvc` driver and `StreamSaver`
engine are the external collaborators: driver parameter state that the class
reads back (`PARAM_EXP_RES`, `PARAM_EXP_TIME`) is carried as state fields,
`pvc.set_exp_modes` is logged in `pushed_modes`, and the `StreamSaver` engine
is a log of operations plus the `active` flag its `acquisition_status`
reports ("true until a join_acquisition call has completed").
-/

namespace PyVCAM

/-- Exception kinds raised by camera.py: `ValueError` for illegal setter
arguments, `RuntimeError` for session conflicts and driver failures
(`pvc.get_frame` raising mid-capture is modelled as `runtimeError`),
`StopIteration` escaping the VTM iterator restart on an empty time list, and
`AttributeError` for method calls on a `None` engine handle. -/
inductive CamErr
  | valueError
  | runtimeError
  | stopIteration
  | attributeError
deriving DecidableEq, Repr

/-- Value of `Camera.__stream_mode` when not `None`: the Python strings
"live" and "acquisition". -/
inductive StreamMode
  | live
  | acquisition
deriving DecidableEq, Repr

/-- Operations issued to the external `pvc.StreamSaver` engine, in the order
camera.py issues them.  `setupAcq`/`setupLive` carry the arguments camera.py
passes: frame count (bounded only), stored exposure time, `x_start`,
`x_end - 1`, `bin_x`, `y_start`, `y_end - 1`, `bin_y`, and the output
directory (bounded only). -/
inductive EngineOp
  | attach (name : String)
  | setupAcq (numFrames : Nat) (expTime : Nat) (x0 x1 bx y0 y1 b_y : Int) (outdir : String)
  | setupLive (expTime : Nat) (x0 x1 bx y0 y1 b_y : Int)
  | start
  | abort
  | join
deriving DecidableEq, Repr

/-- External `pvc.StreamSaver` engine: the log of operations it has received
and the flag its `acquisition_status()` reports (set by `start_acquisition`,
cleared by `join_acquisition`). -/
structure Engine where
  log : List EngineOp
  active : Bool
deriving DecidableEq, Repr

def Engine.new : Engine := ⟨[], false⟩

def Engine.attach_camera (e : Engine) (name : String) : Engine :=
  { e with log := e.log ++ [EngineOp.attach name] }

def Engine.setup_acquisition (e : Engine) (numFrames expTime : Nat)
    (x0 x1 bx y0 y1 b_y : Int) (outdir : String) : Engine :=
  { e with log := e.log ++ [EngineOp.setupAcq numFrames expTime x0 x1 bx y0 y1 b_y outdir] }

def Engine.setup_live (e : Engine) (expTime : Nat) (x0 x1 bx y0 y1 b_y : Int) : Engine :=
  { e with log := e.log ++ [EngineOp.setupLive expTime x0 x1 bx y0 y1 b_y] }

def Engine.start_acquisition (e : Engine) : Engine :=
  { log := e.log ++ [EngineOp.start], active := true }

def Engine.abort_acquisition (e : Engine) : Engine :=
  { e with log := e.log ++ [EngineOp.abort] }

def Engine.join_acquisition (e : Engine) : Engine :=
  { log := e.log ++ [EngineOp.join], active := false }

def Engine.acquisition_status (e : Engine) : Bool := e.active

/-- The `Camera.__roi` 4-tuple (x_start, x_end, y_start, y_end). -/
structure Roi where
  x_start : Int
  x_end : Int
  y_start : Int
  y_end : Int
deriving DecidableEq, Repr

/-- Mutable state of one opened `Camera` object (after `open()` has run, so
`__roi`, `__exp_mode`, `__exp_out_mode` and `__mode` are set).  `exp_res` and
`vtm_exp_time` are the driver-side current values of `PARAM_EXP_RES` and
`PARAM_EXP_TIME` that the `exp_res` / `vtm_exp_time` properties read and
write through `pvc`; `pushed_modes` logs every `pvc.set_exp_modes` call. -/
structure CamState where
  name : String
  handle : Int
  is_open : Bool
  exp_mode : Nat
  exp_out_mode : Nat
  mode : Nat
  exp_time : Nat
  binning : Int × Int
  roi : Roi
  shape : Int × Int
  stream_mode : Option StreamMode
  stream_saver : Option Engine
  exp_res : Nat
  vtm_exp_time : Nat
  pushed_modes : List Nat
deriving DecidableEq, Repr

/-- Driver-reported environment a `Camera` runs against: sensor size
(`PARAM_SER_SIZE`, `PARAM_PAR_SIZE`), the enumerated legal binning values
(`read_enum(PARAM_BINNING_SER)`, `read_enum(PARAM_BINNING_PAR)`), and the
fixed name-to-value tables `const.exp_modes`, `const.exp_out_modes`,
`const.exp_resolutions` from constants.py. -/
structure CamEnv where
  sensor_w : Int
  sensor_h : Int
  legal_ser : List Int
  legal_par : List Int
  exp_modes : List (String × Nat)
  exp_out_modes : List (String × Nat)
  exp_resolutions : List (String × Nat)
deriving Repr

/-- Argument of a Python setter that accepts either a symbolic name
(a `str`) or a raw integer value. -/
inductive PyArg
  | str (k : String)
  | int (n : Nat)
deriving DecidableEq, Repr

/-- Argument of the `binning` setter: a 2-tuple or a single scalar. -/
inductive BinArg
  | tup (x y : Int)
  | scalar (v : Int)
deriving DecidableEq, Repr

/-- Key lookup in a Python dict modelled as an association list:
`tbl[k]` when `k in tbl`. -/
def lookupKey (tbl : List (String × Nat)) (k : String) : Option Nat :=
  (tbl.find? (fun p => p.1 == k)).map (fun p => p.2)

namespace Camera

/-- Camera.calculate_reshape: `width = roi[1] - roi[0]`,
`height = roi[3] - roi[2]`,
`shape = (int(width / bin_x), int(height / bin_y))`.  Python `int()` on the
float quotient truncates toward zero, hence `Int.tdiv`. -/
def calculate_reshape (s : CamState) : CamState :=
  let width := s.roi.x_end - s.roi.x_start
  let height := s.roi.y_end - s.roi.y_start
  { s with shape := (width.tdiv s.binning.1, height.tdiv s.binning.2) }

/-- Camera.update_mode: `__mode = __exp_mode | __exp_out_mode` then
`pvc.set_exp_modes(handle, __mode)` (logged in `pushed_modes`). -/
def update_mode (s : CamState) : CamState :=
  let m := s.exp_mode ||| s.exp_out_mode
  { s with mode := m, pushed_modes := s.pushed_modes ++ [m] }

/-- Validity test of the `roi` setter: every component of the 4-tuple lies in
`range(0, sensor + 1)` on its axis, i.e. `0 ≤ c ≤ sensor`. -/
def roiInBounds (env : CamEnv) (v : Int × Int × Int × Int) : Prop :=
  0 ≤ v.1 ∧ v.1 ≤ env.sensor_w ∧
  0 ≤ v.2.1 ∧ v.2.1 ≤ env.sensor_w ∧
  0 ≤ v.2.2.1 ∧ v.2.2.1 ≤ env.sensor_h ∧
  0 ≤ v.2.2.2 ∧ v.2.2.2 ≤ env.sensor_h

instance (env : CamEnv) (v : Int × Int × Int × Int) : Decidable (roiInBounds env v) := by
  unfold roiInBounds
  exact inferInstance

/-- Camera.roi setter.  The Lean value is structurally a 4-tuple of integers,
so the `isinstance`/length check of camera.py always passes; the bounds check
against `sensor_size` follows, and on success `__roi` is stored and the shape
recomputed.  No ordering between start and end is required. -/
def roi_set (env : CamEnv) (s : CamState) (v : Int × Int × Int × Int) :
    CamState × Option CamErr :=
  if roiInBounds env v then
    (calculate_reshape { s with roi := ⟨v.1, v.2.1, v.2.2.1, v.2.2.2⟩ }, none)
  else
    (s, some CamErr.valueError)

/-- Camera.bin_x setter: value must be in `read_enum(PARAM_BINNING_SER)`. -/
def bin_x_set (env : CamEnv) (s : CamState) (v : Int) : CamState × Option CamErr :=
  if v ∈ env.legal_ser then
    (calculate_reshape { s with binning := (v, s.binning.2) }, none)
  else
    (s, some CamErr.valueError)

/-- Camera.bin_y setter: value must be in `read_enum(PARAM_BINNING_PAR)`. -/
def bin_y_set (env : CamEnv) (s : CamState) (v : Int) : CamState × Option CamErr :=
  if v ∈ env.legal_par then
    (calculate_reshape { s with binning := (s.binning.1, v) }, none)
  else
    (s, some CamErr.valueError)

/-- Camera.binning setter: a tuple delegates to `bin_x = value[0]` then
`bin_y = value[1]` (if the first assignment raises, the second never runs; if
the second raises, the first has already mutated the state); a scalar is
checked against the serial list and stored symmetrically. -/
def binning_set (env : CamEnv) (s : CamState) (v : BinArg) : CamState × Option CamErr :=
  match v with
  | BinArg.tup a b =>
    match bin_x_set env s a with
    | (s1, none) => bin_y_set env s1 b
    | (s1, some e) => (s1, some e)
  | BinArg.scalar a =>
    if a ∈ env.legal_ser then
      (calculate_reshape { s with binning := (a, a) }, none)
    else
      (s, some CamErr.valueError)

/-- Camera.exp_mode setter: a string is looked up in `const.exp_modes`, an
integer must be among that table's values; on success `__exp_mode` is stored
and `update_mode` runs. -/
def exp_mode_set (env : CamEnv) (s : CamState) (v : PyArg) : CamState × Option CamErr :=
  match v with
  | PyArg.str k =>
    match lookupKey env.exp_modes k with
    | some m => (update_mode { s with exp_mode := m }, none)
    | none => (s, some CamErr.valueError)
  | PyArg.int m =>
    if m ∈ env.exp_modes.map (fun p => p.2) then
      (update_mode { s with exp_mode := m }, none)
    else
      (s, some CamErr.valueError)

/-- Camera.exp_out_mode setter: like `exp_mode_set` but against
`const.exp_out_modes`, storing `__exp_out_mode`. -/
def exp_out_mode_set (env : CamEnv) (s : CamState) (v : PyArg) : CamState × Option CamErr :=
  match v with
  | PyArg.str k =>
    match lookupKey env.exp_out_modes k with
    | some m => (update_mode { s with exp_out_mode := m }, none)
    | none => (s, some CamErr.valueError)
  | PyArg.int m =>
    if m ∈ env.exp_out_modes.map (fun p => p.2) then
      (update_mode { s with exp_out_mode := m }, none)
    else
      (s, some CamErr.valueError)

/-- Camera.exp_res setter: name looked up in `const.exp_resolutions`, or an
integer among its values; on success `set_param(PARAM_EXP_RES, value)`. -/
def exp_res_set (env : CamEnv) (s : CamState) (v : PyArg) : CamState × Option CamErr :=
  match v with
  | PyArg.str k =>
    match lookupKey env.exp_resolutions k with
    | some r => ({ s with exp_res := r }, none)
    | none => (s, some CamErr.valueError)
  | PyArg.int r =>
    if r ∈ env.exp_resolutions.map (fun p => p.2) then
      ({ s with exp_res := r }, none)
    else
      (s, some CamErr.valueError)

/-- Camera.vtm_exp_time setter: `value in range(2**16)` (the lower bound is
automatic for `Nat`); on success `set_param(PARAM_EXP_TIME, value)`. -/
def vtm_exp_time_set (s : CamState) (v : Nat) : CamState × Option CamErr :=
  if v < 65536 then
    ({ s with vtm_exp_time := v }, none)
  else
    (s, some CamErr.valueError)

/-- Camera.check_acquisition: `False` when `__stream_mode is None`, otherwise
`__stream_saver.acquisition_status()` — which is an `AttributeError`
(modelled as `none`) when the engine handle is `None`. -/
def check_acquisition (s : CamState) : Option Bool :=
  match s.stream_mode with
  | none => some false
  | some _ => s.stream_saver.map Engine.acquisition_status

/-- Camera.start_live_acquisition: create-and-attach the engine if absent
(`pvc.uninit_pvcam` touches no camera state), then `setup_live` with the
stored exposure time, ROI and binning, `start_acquisition`, and
`__stream_mode = "live"`. -/
def start_live_acquisition (s : CamState) : CamState :=
  let e :=
    match s.stream_saver with
    | none => Engine.new.attach_camera s.name
    | some e0 => e0
  let e1 := e.setup_live s.exp_time s.roi.x_start (s.roi.x_end - 1) s.binning.1
    s.roi.y_start (s.roi.y_end - 1) s.binning.2
  let e2 := e1.start_acquisition
  { s with stream_saver := some e2, stream_mode := some StreamMode.live }

/-- Camera.start_live: `if not self.check_acquisition(): start_live_acquisition()`;
an already-active acquisition makes this a silent no-op. -/
def start_live (s : CamState) : CamState × Option CamErr :=
  match check_acquisition s with
  | none => (s, some CamErr.attributeError)
  | some true => (s, none)
  | some false => (start_live_acquisition s, none)

/-- Camera.abort_acquisition: `RuntimeError` when idle, otherwise the engine
is told to abort (an `AttributeError` if the handle is `None`). -/
def abort_acquisition (s : CamState) : CamState × Option CamErr :=
  match s.stream_mode with
  | none => (s, some CamErr.runtimeError)
  | some _ =>
    match s.stream_saver with
    | none => (s, some CamErr.attributeError)
    | some e => ({ s with stream_saver := some e.abort_acquisition }, none)

/-- Camera.join_acquisition: `RuntimeError` when idle, otherwise joins the
engine and clears `__stream_mode`. -/
def join_acquisition (s : CamState) : CamState × Option CamErr :=
  match s.stream_mode with
  | none => (s, some CamErr.runtimeError)
  | some _ =>
    match s.stream_saver with
    | none => (s, some CamErr.attributeError)
    | some e =>
      ({ s with stream_saver := some e.join_acquisition, stream_mode := none }, none)

/-- Camera.stop_live: returns immediately unless `__stream_mode == "live"`;
then `abort_acquisition(); join_acquisition()` inside a
`try ... except RuntimeError: pass` (a `RuntimeError` from either call is
swallowed, anything else propagates). -/
def stop_live (s : CamState) : CamState × Option CamErr :=
  if s.stream_mode ≠ some StreamMode.live then
    (s, none)
  else
    match abort_acquisition s with
    | (s1, none) =>
      match join_acquisition s1 with
      | (s2, none) => (s2, none)
      | (s2, some CamErr.runtimeError) => (s2, none)
      | (s2, some e) => (s2, some e)
    | (s1, some CamErr.runtimeError) => (s1, none)
    | (s1, some e) => (s1, some e)

/-- Shared tail of Camera.start_acquisition: `setup_acquisition(num_frames,
exp_time, 0, x_start, x_end - 1, bin_x, y_start, y_end - 1, bin_y, outdir)`,
`start_acquisition()`, `__stream_mode = "acquisition"`. -/
def setup_and_start (s : CamState) (e : Engine) (num_frames : Nat) (outdir : String) :
    CamState :=
  let e1 := e.setup_acquisition num_frames s.exp_time s.roi.x_start (s.roi.x_end - 1)
    s.binning.1 s.roi.y_start (s.roi.y_end - 1) s.binning.2 outdir
  { s with stream_saver := some e1.start_acquisition,
           stream_mode := some StreamMode.acquisition }

/-- Camera.start_acquisition: the `os.path.isdir`/`os.mkdir` filesystem calls
touch no camera state.  If the engine handle is `None` it is created and
attached; elif the mode is "live" the live session is stopped first; elif the
mode is not `None` a `RuntimeError` ("There is already an active
acquisition!") is raised; then the engine is configured for a bounded capture
and started. -/
def start_acquisition (s : CamState) (num_frames : Nat) (outdir : String) :
    CamState × Option CamErr :=
  match s.stream_saver with
  | none =>
    let e := Engine.new.attach_camera s.name
    (setup_and_start s e num_frames outdir, none)
  | some e0 =>
    if s.stream_mode = some StreamMode.live then
      match stop_live s with
      | (s1, none) =>
        match s1.stream_saver with
        | some e => (setup_and_start s1 e num_frames outdir, none)
        | none => (s1, some CamErr.attributeError)
      | (s1, some e) => (s1, some e)
    else if s.stream_mode ≠ none then
      (s, some CamErr.runtimeError)
    else
      (setup_and_start s e0 num_frames outdir, none)

/-- Camera.close: `pvc.close_camera(handle)` (external), `__handle = -1`,
`__is_open = False`, `__stream_saver = None`.  Nothing else changes: in
particular `__stream_mode` is left as it was, and no abort or join is issued
to the engine. -/
def close (s : CamState) : CamState :=
  { s with handle := -1, is_open := false, stream_saver := none }

/-- Iterator step of the `get_vtm_sequence` loop: `next(t)` on the remaining
elements `rem`, and on exhaustion the bare `except:` rebuilds the iterator
from the full `time_list` and calls `next` again — which still fails
(`none`) when `time_list` itself is empty. -/
def vtmNext (time_list rem : List Nat) : Option (Nat × List Nat) :=
  match rem with
  | t :: rest => some (t, rest)
  | [] =>
    match time_list with
    | [] => none
    | t :: rest => some (t, rest)

/-- Per-frame body of the `get_vtm_sequence` loop, iterating `count` more
frames with `i` frames already done.  `rem` is what is left of the Python
iterator over `time_list` (see `vtmNext`).  Each iteration assigns
`self.vtm_exp_time = next(t)` through the validated setter and then issues
`pvc.get_frame`; `captureOk i` says whether that external call succeeds at
frame `i` (a failure raises out of the whole method).  `acc` records the
`vtm_exp_time` in effect for each capture issued so far. -/
def vtmLoop (captureOk : Nat → Bool) (time_list : List Nat) :
    Nat → Nat → List Nat → CamState → List Nat → CamState × List Nat × Option CamErr
  | _, 0, _, s, acc => (s, acc, none)
  | i, count + 1, rem, s, acc =>
    match vtmNext time_list rem with
    | none => (s, acc, some CamErr.stopIteration)
    | some (t, rest) =>
      match vtm_exp_time_set s t with
      | (s1, none) =>
        if captureOk i then
          vtmLoop captureOk time_list (i + 1) count rest s1 (acc ++ [t])
        else
          (s1, acc ++ [t], some CamErr.runtimeError)
      | (s1, some e) => (s1, acc, some e)

/-- Camera.get_vtm_sequence: validates every entry of `time_list` against
`range(2**16)`, saves `old_res = self.exp_res`, assigns
`self.exp_res = exp_res` through the validated setter, runs the capture loop,
and only after the loop completes assigns `self.exp_res = old_res` (again
through the setter).  There is no `try`/`finally`: an exception inside the
loop propagates with the restore skipped.  The second component is the list
of per-capture `vtm_exp_time` values; `self.exp_time`, `self.shape` and the
optional `time.sleep(interval)` have no state effect. -/
def get_vtm_sequence (captureOk : Nat → Bool) (env : CamEnv) (s : CamState)
    (time_list : List Nat) (exp_res_arg : Nat) (num_frames : Nat) :
    CamState × List Nat × Option CamErr :=
  if time_list.all (fun t => decide (t < 65536)) then
    let old_res := s.exp_res
    match exp_res_set env s (PyArg.int exp_res_arg) with
    | (s1, none) =>
      match vtmLoop captureOk time_list 0 num_frames time_list s1 [] with
      | (s2, acc, none) =>
        match exp_res_set env s2 (PyArg.int old_res) with
        | (s3, none) => (s3, acc, none)
        | (s3, some e) => (s3, acc, some e)
      | (s2, acc, some e) => (s2, acc, some e)
    | (s1, some e) => (s1, [], some e)
  else
    (s, [], some CamErr.valueError)

end Camera

end PyVCAM

namespace PyVCAM

/-! ### Concrete fixtures for witnesses and counterexamples -/

/-- Representative driver environment: a 2048x2048 sensor, symmetric legal
binnings 1/2/4 on both axes, and small mode tables in the style of
constants.py. -/
def envA : CamEnv :=
  ⟨2048, 2048, [1, 2, 4], [1, 2, 4],
   [("Internal Trigger", 1792), ("Edge Trigger", 2304)],
   [("First Row", 0), ("All Rows", 512)],
   [("One Millisecond", 0), ("One Microsecond", 1)]⟩

/-- Freshly opened camera on `envA`: full-frame ROI, binning (1, 1), no
acquisition session. -/
def s0 : CamState :=
  ⟨"PMUSBCam00", 0, true, 1792, 0, 1792, 10, (1, 1), ⟨0, 2048, 0, 2048⟩,
   (2048, 2048), none, none, 0, 0, []⟩

/-- Engine of a running bounded (Sequence) session on `s0`. -/
def engSeq : Engine :=
  ⟨[EngineOp.attach "PMUSBCam00",
    EngineOp.setupAcq 100 10 0 2047 1 0 2047 1 "outdir",
    EngineOp.start], true⟩

/-- Camera state with a running Sequence session. -/
def sSeq : CamState :=
  { s0 with stream_mode := some StreamMode.acquisition, stream_saver := some engSeq }

/-- Engine of a running live session on `s0`. -/
def engLive : Engine :=
  ⟨[EngineOp.attach "PMUSBCam00",
    EngineOp.setupLive 10 0 2047 1 0 2047 1,
    EngineOp.start], true⟩

/-- Camera state with a running Live session. -/
def sLive : CamState :=
  { s0 with stream_mode := some StreamMode.live, stream_saver := some engLive }

/-! ### Geometry: shape consistency -/

/-- Relation camera.py actually maintains between `__shape`, `__roi` and
`__binning`: the truncated-toward-zero quotients of the signed differences. -/
def shapeConsistent (s : CamState) : Prop :=
  s.shape = ((s.roi.x_end - s.roi.x_start).tdiv s.binning.1,
             (s.roi.y_end - s.roi.y_start).tdiv s.binning.2)

lemma shapeConsistent_calculate_reshape (s : CamState) :
    shapeConsistent (Camera.calculate_reshape s) := by
  simp [shapeConsistent, Camera.calculate_reshape]

lemma roi_set_ok_shapeConsistent (env : CamEnv) (s : CamState)
    (v : Int × Int × Int × Int) (s' : CamState)
    (h : Camera.roi_set env s v = (s', none)) : shapeConsistent s' := by
  unfold Camera.roi_set at h
  split at h
  · exact (Prod.mk.injEq _ _ _ _ ▸ h).1 ▸ shapeConsistent_calculate_reshape _
  · exact absurd ((Prod.mk.injEq _ _ _ _ ▸ h).2) (by simp)

lemma bin_x_set_ok_shapeConsistent (env : CamEnv) (s : CamState) (v : Int)
    (s' : CamState) (h : Camera.bin_x_set env s v = (s', none)) : shapeConsistent s' := by
  unfold Camera.bin_x_set at h
  split at h
  · exact (Prod.mk.injEq _ _ _ _ ▸ h).1 ▸ shapeConsistent_calculate_reshape _
  · exact absurd ((Prod.mk.injEq _ _ _ _ ▸ h).2) (by simp)

lemma bin_y_set_ok_shapeConsistent (env : CamEnv) (s : CamState) (v : Int)
    (s' : CamState) (h : Camera.bin_y_set env s v = (s', none)) : shapeConsistent s' := by
  unfold Camera.bin_y_set at h
  split at h
  · exact (Prod.mk.injEq _ _ _ _ ▸ h).1 ▸ shapeConsistent_calculate_reshape _
  · exact absurd ((Prod.mk.injEq _ _ _ _ ▸ h).2) (by simp)

lemma binning_set_ok_shapeConsistent (env : CamEnv) (s : CamState) (v : BinArg)
    (s' : CamState) (h : Camera.binning_set env s v = (s', none)) : shapeConsistent s' := by
  unfold Camera.binning_set at h
  match v with
  | BinArg.tup a b =>
    simp only at h
    split at h
    next s1 heq => exact bin_y_set_ok_shapeConsistent env s1 b s' h
    next s1 e heq => exact absurd ((Prod.mk.injEq _ _ _ _ ▸ h).2) (by simp)
  | BinArg.scalar a =>
    simp only at h
    split at h
    · exact (Prod.mk.injEq _ _ _ _ ▸ h).1 ▸ shapeConsistent_calculate_reshape _
    · exact absurd ((Prod.mk.injEq _ _ _ _ ▸ h).2) (by simp)

/-- C1: the claim as stated is false on the code: after a successful binning
change to `bin_x = 2` and a successful ROI change to the in-bounds tuple
`(5, 0, 0, 10)`, the stored shape component is `int(-5 / 2) = -2`
(truncation toward zero), not `floor(-5 / 2) = -3` as the claim's formula
requires. -/
theorem C1_floor_counterexample :
    (Camera.bin_x_set envA s0 2).2 = none ∧
    (Camera.roi_set envA (Camera.bin_x_set envA s0 2).1 (5, 0, 0, 10)).2 = none ∧
    (Camera.roi_set envA (Camera.bin_x_set envA s0 2).1 (5, 0, 0, 10)).1.shape.1 = -2 ∧
    Int.fdiv
      ((Camera.roi_set envA (Camera.bin_x_set envA s0 2).1 (5, 0, 0, 10)).1.roi.x_end -
       (Camera.roi_set envA (Camera.bin_x_set envA s0 2).1 (5, 0, 0, 10)).1.roi.x_start)
      (Camera.roi_set envA (Camera.bin_x_set envA s0 2).1 (5, 0, 0, 10)).1.binning.1 = -3 := by
  decide

/-- C1 (amended): after every successful ROI or binning setter call — per-axis,
joint, or ROI — the stored shape equals the truncated-toward-zero quotients
`(int((x_end - x_start) / bin_x), int((y_end - y_start) / bin_y))`; this
agrees with the claim's floor exactly when the differences are nonnegative.
The derived shape is never stale. -/
theorem C1_shape_consistent_after_setters :
    (∀ (env : CamEnv) (s : CamState) (v : Int × Int × Int × Int) (s' : CamState),
      Camera.roi_set env s v = (s', none) → shapeConsistent s') ∧
    (∀ (env : CamEnv) (s : CamState) (v : Int) (s' : CamState),
      Camera.bin_x_set env s v = (s', none) → shapeConsistent s') ∧
    (∀ (env : CamEnv) (s : CamState) (v : Int) (s' : CamState),
      Camera.bin_y_set env s v = (s', none) → shapeConsistent s') ∧
    (∀ (env : CamEnv) (s : CamState) (v : BinArg) (s' : CamState),
      Camera.binning_set env s v = (s', none) → shapeConsistent s') :=
  ⟨roi_set_ok_shapeConsistent, bin_x_set_ok_shapeConsistent,
   bin_y_set_ok_shapeConsistent, binning_set_ok_shapeConsistent⟩

/-- C1 witness: the amended theorem instantiated at a concrete successful ROI
setter call and a concrete successful joint binning call. -/
theorem C1_shape_consistent_witness :
    shapeConsistent (Camera.roi_set envA s0 (0, 1024, 0, 1024)).1 ∧
    shapeConsistent (Camera.binning_set envA s0 (BinArg.tup 2 4)).1 :=
  ⟨C1_shape_consistent_after_setters.1 envA s0 (0, 1024, 0, 1024) _ (by decide),
   C1_shape_consistent_after_setters.2.2.2 envA s0 (BinArg.tup 2 4) _ (by decide)⟩


/-- C3: an ROI tuple with any component outside `[0, sensor]` on its axis
makes the setter raise `ValueError` and return the state — including `roi`
and `shape` — exactly as it was. -/
theorem C3_roi_out_of_bounds_rejected (env : CamEnv) (s : CamState)
    (v : Int × Int × Int × Int) (h : ¬ Camera.roiInBounds env v) :
    Camera.roi_set env s v = (s, some CamErr.valueError) := by
  unfold Camera.roi_set
  simp [h]

/-- C3 witness: the x_start component `-1` is below the sensor bound, so the
call fails and `s0` is untouched. -/
theorem C3_roi_out_of_bounds_witness :
    Camera.roi_set envA s0 (-1, 2048, 0, 2048) = (s0, some CamErr.valueError) :=
  C3_roi_out_of_bounds_rejected envA s0 (-1, 2048, 0, 2048) (by decide)

/-- C10: every 4-tuple whose components are all within the sensor bounds is
accepted by the ROI setter even when an end is at or below its start, and
the stored shape is the truncated quotient of the signed differences;
concretely, the in-bounds reversed tuple `(6, 0, 0, 10)` succeeds on `s0`
with a negative first shape component, and `(0, 0, 0, 10)` with a zero one. -/
theorem C10_roi_signed_shape :
    (∀ (env : CamEnv) (s : CamState) (v : Int × Int × Int × Int),
      Camera.roiInBounds env v →
        (Camera.roi_set env s v).2 = none ∧
        (Camera.roi_set env s v).1.shape =
          ((v.2.1 - v.1).tdiv s.binning.1, (v.2.2.2 - v.2.2.1).tdiv s.binning.2)) ∧
    (Camera.roi_set envA s0 (6, 0, 0, 10)).2 = none ∧
    (Camera.roi_set envA s0 (6, 0, 0, 10)).1.shape.1 < 0 ∧
    (Camera.roi_set envA s0 (0, 0, 0, 10)).2 = none ∧
    (Camera.roi_set envA s0 (0, 0, 0, 10)).1.shape.1 = 0 := by
  refine ⟨fun env s v h => ?_, by decide, by decide, by decide, by decide⟩
  unfold Camera.roi_set
  simp [h, Camera.calculate_reshape]

/-- C10 witness: the universal part instantiated at the concrete in-bounds
reversed tuple `(6, 0, 0, 10)` on `s0`. -/
theorem C10_roi_signed_shape_witness :
    (Camera.roi_set envA s0 (6, 0, 0, 10)).2 = none ∧
    (Camera.roi_set envA s0 (6, 0, 0, 10)).1.shape =
      (((0 : Int) - 6).tdiv s0.binning.1, ((10 : Int) - 0).tdiv s0.binning.2) :=
  C10_roi_signed_shape.1 envA s0 (6, 0, 0, 10) (by decide)

/-- C9: the claim as stated is false on the code: the joint tuple form
`binning = (2, 3)` on `envA` (where 2 is a legal serial binning but 3 is not
a legal parallel binning) raises `ValueError`, yet leaves the stored binning
changed to `(2, 1)` and the shape recomputed — because the tuple form runs
the x-axis setter first and the exception in the y-axis setter does not roll
it back. -/
theorem C9_tuple_binning_counterexample :
    (Camera.binning_set envA s0 (BinArg.tup 2 3)).2 = some CamErr.valueError ∧
    (Camera.binning_set envA s0 (BinArg.tup 2 3)).1.binning ≠ s0.binning ∧
    (Camera.binning_set envA s0 (BinArg.tup 2 3)).1.shape ≠ s0.shape := by
  decide

/-- C9 (amended): the per-axis setters and the scalar joint form leave the
stored binning and shape unchanged when they fail with `ValueError`; the
tuple joint form leaves them unchanged when the x value is illegal, but when
the x value is legal and the y value is not, the x-axis binning has already
been updated (and the shape recomputed from it) before the `ValueError` is
raised. -/
theorem C9_binning_failure_behaviour :
    (∀ (env : CamEnv) (s : CamState) (v : Int),
      v ∉ env.legal_ser → Camera.bin_x_set env s v = (s, some CamErr.valueError)) ∧
    (∀ (env : CamEnv) (s : CamState) (v : Int),
      v ∉ env.legal_par → Camera.bin_y_set env s v = (s, some CamErr.valueError)) ∧
    (∀ (env : CamEnv) (s : CamState) (v : Int),
      v ∉ env.legal_ser →
        Camera.binning_set env s (BinArg.scalar v) = (s, some CamErr.valueError)) ∧
    (∀ (env : CamEnv) (s : CamState) (a b : Int),
      a ∉ env.legal_ser →
        Camera.binning_set env s (BinArg.tup a b) = (s, some CamErr.valueError)) ∧
    (∀ (env : CamEnv) (s : CamState) (a b : Int),
      a ∈ env.legal_ser → b ∉ env.legal_par →
        Camera.binning_set env s (BinArg.tup a b) =
          (Camera.calculate_reshape { s with binning := (a, s.binning.2) },
           some CamErr.valueError)) := by
  refine ⟨fun env s v h => ?_, fun env s v h => ?_, fun env s v h => ?_,
    fun env s a b ha => ?_, fun env s a b ha hb => ?_⟩
  · unfold Camera.bin_x_set
    simp [h]
  · unfold Camera.bin_y_set
    simp [h]
  · unfold Camera.binning_set
    simp [h]
  · unfold Camera.binning_set Camera.bin_x_set
    simp [ha]
  · unfold Camera.binning_set Camera.bin_x_set Camera.bin_y_set
    simp [ha, hb, Camera.calculate_reshape]

/-- C9 witness: the amended theorem instantiated at concrete failing calls:
an illegal per-axis value 3 on the parallel axis of `envB` (whose parallel
list is `[1]`), an illegal scalar 5, a tuple whose x value 5 is illegal, and
the tuple `(2, 3)` whose x value is legal but whose y value is not. -/
theorem C9_binning_failure_witness :
    Camera.bin_y_set ⟨2048, 2048, [1, 2], [1], [], [], []⟩ s0 3 =
      (s0, some CamErr.valueError) ∧
    Camera.binning_set envA s0 (BinArg.scalar 5) = (s0, some CamErr.valueError) ∧
    Camera.binning_set envA s0 (BinArg.tup 5 2) = (s0, some CamErr.valueError) ∧
    Camera.binning_set envA s0 (BinArg.tup 2 3) =
      (Camera.calculate_reshape { s0 with binning := (2, s0.binning.2) },
       some CamErr.valueError) :=
  ⟨C9_binning_failure_behaviour.2.1 ⟨2048, 2048, [1, 2], [1], [], [], []⟩ s0 3 (by decide),
   C9_binning_failure_behaviour.2.2.1 envA s0 5 (by decide),
   C9_binning_failure_behaviour.2.2.2.1 envA s0 5 2 (by decide),
   C9_binning_failure_behaviour.2.2.2.2 envA s0 2 3 (by decide) (by decide)⟩


/-! ### Exposure mode composition -/

lemma update_mode_spec (s : CamState) :
    (Camera.update_mode s).mode = (Camera.update_mode s).exp_mode |||
      (Camera.update_mode s).exp_out_mode ∧
    (Camera.update_mode s).pushed_modes =
      s.pushed_modes ++ [(Camera.update_mode s).mode] := by
  simp [Camera.update_mode]

lemma exp_mode_set_ok_mode (env : CamEnv) (s : CamState) (a : PyArg) (s' : CamState)
    (h : Camera.exp_mode_set env s a = (s', none)) :
    s'.mode = s'.exp_mode ||| s'.exp_out_mode ∧
    s'.pushed_modes = s.pushed_modes ++ [s'.mode] := by
  unfold Camera.exp_mode_set at h
  match a with
  | PyArg.str k =>
    simp only at h
    split at h
    next m heq =>
      exact (Prod.mk.injEq _ _ _ _ ▸ h).1 ▸ update_mode_spec _
    next heq =>
      exact absurd ((Prod.mk.injEq _ _ _ _ ▸ h).2) (by simp)
  | PyArg.int m =>
    simp only at h
    split at h
    · exact (Prod.mk.injEq _ _ _ _ ▸ h).1 ▸ update_mode_spec _
    · exact absurd ((Prod.mk.injEq _ _ _ _ ▸ h).2) (by simp)

lemma exp_out_mode_set_ok_mode (env : CamEnv) (s : CamState) (a : PyArg) (s' : CamState)
    (h : Camera.exp_out_mode_set env s a = (s', none)) :
    s'.mode = s'.exp_mode ||| s'.exp_out_mode ∧
    s'.pushed_modes = s.pushed_modes ++ [s'.mode] := by
  unfold Camera.exp_out_mode_set at h
  match a with
  | PyArg.str k =>
    simp only at h
    split at h
    next m heq =>
      exact (Prod.mk.injEq _ _ _ _ ▸ h).1 ▸ update_mode_spec _
    next heq =>
      exact absurd ((Prod.mk.injEq _ _ _ _ ▸ h).2) (by simp)
  | PyArg.int m =>
    simp only at h
    split at h
    · exact (Prod.mk.injEq _ _ _ _ ▸ h).1 ▸ update_mode_spec _
    · exact absurd ((Prod.mk.injEq _ _ _ _ ▸ h).2) (by simp)

/-- C2: immediately after every successful call to the `exp_mode` or
`exp_out_mode` setter — by symbolic name or by raw integer — the stored
composed mode equals the bitwise-or of the stored exposure mode and the
stored expose-out mode, and exactly that composed value has just been pushed
to the driver through `pvc.set_exp_modes`. -/
theorem C2_device_mode_composition :
    (∀ (env : CamEnv) (s : CamState) (a : PyArg) (s' : CamState),
      Camera.exp_mode_set env s a = (s', none) →
        s'.mode = s'.exp_mode ||| s'.exp_out_mode ∧
        s'.pushed_modes = s.pushed_modes ++ [s'.mode]) ∧
    (∀ (env : CamEnv) (s : CamState) (a : PyArg) (s' : CamState),
      Camera.exp_out_mode_set env s a = (s', none) →
        s'.mode = s'.exp_mode ||| s'.exp_out_mode ∧
        s'.pushed_modes = s.pushed_modes ++ [s'.mode]) :=
  ⟨exp_mode_set_ok_mode, exp_out_mode_set_ok_mode⟩

/-- C2 witness: the theorem instantiated at a successful symbolic `exp_mode`
call and a successful raw-integer `exp_out_mode` call on `s0`. -/
theorem C2_device_mode_witness :
    ((Camera.exp_mode_set envA s0 (PyArg.str "Edge Trigger")).1.mode =
       (Camera.exp_mode_set envA s0 (PyArg.str "Edge Trigger")).1.exp_mode |||
       (Camera.exp_mode_set envA s0 (PyArg.str "Edge Trigger")).1.exp_out_mode ∧
     (Camera.exp_mode_set envA s0 (PyArg.str "Edge Trigger")).1.pushed_modes =
       s0.pushed_modes ++ [(Camera.exp_mode_set envA s0 (PyArg.str "Edge Trigger")).1.mode]) ∧
    ((Camera.exp_out_mode_set envA s0 (PyArg.int 512)).1.mode =
       (Camera.exp_out_mode_set envA s0 (PyArg.int 512)).1.exp_mode |||
       (Camera.exp_out_mode_set envA s0 (PyArg.int 512)).1.exp_out_mode ∧
     (Camera.exp_out_mode_set envA s0 (PyArg.int 512)).1.pushed_modes =
       s0.pushed_modes ++ [(Camera.exp_out_mode_set envA s0 (PyArg.int 512)).1.mode]) :=
  ⟨C2_device_mode_composition.1 envA s0 (PyArg.str "Edge Trigger") _ (by decide),
   C2_device_mode_composition.2 envA s0 (PyArg.int 512) _ (by decide)⟩


/-! ### Acquisition lifecycle -/

/-- C4: `start_acquisition` against the three acquisition states (a session
always owns its engine handle, so an active state carries `some e`): in
`Sequence` it raises the session-conflict `RuntimeError` and returns the
state — engine included — untouched; in `Live` it first aborts and joins the
live session and only then configures and starts the bounded capture, ending
in `Sequence`; in `Idle` it configures and starts directly, ending in
`Sequence`. -/
theorem C4_start_acquisition_states :
    (∀ (s : CamState) (n : Nat) (d : String) (e : Engine),
      s.stream_mode = some StreamMode.acquisition → s.stream_saver = some e →
        Camera.start_acquisition s n d = (s, some CamErr.runtimeError)) ∧
    (∀ (s : CamState) (n : Nat) (d : String) (e : Engine),
      s.stream_mode = some StreamMode.live → s.stream_saver = some e →
        (Camera.start_acquisition s n d).2 = none ∧
        (Camera.start_acquisition s n d).1.stream_mode = some StreamMode.acquisition ∧
        (Camera.start_acquisition s n d).1.stream_saver =
          some ⟨e.log ++ [EngineOp.abort, EngineOp.join,
            EngineOp.setupAcq n s.exp_time s.roi.x_start (s.roi.x_end - 1) s.binning.1
              s.roi.y_start (s.roi.y_end - 1) s.binning.2 d, EngineOp.start], true⟩) ∧
    (∀ (s : CamState) (n : Nat) (d : String),
      s.stream_mode = none →
        (Camera.start_acquisition s n d).2 = none ∧
        (Camera.start_acquisition s n d).1.stream_mode = some StreamMode.acquisition) := by
  refine ⟨fun s n d e h1 h2 => ?_, fun s n d e h1 h2 => ?_, fun s n d h => ?_⟩
  · simp [Camera.start_acquisition, h1, h2]
  · simp [Camera.start_acquisition, h1, h2, Camera.stop_live, Camera.abort_acquisition,
      Camera.join_acquisition, Camera.setup_and_start, Engine.abort_acquisition,
      Engine.join_acquisition, Engine.setup_acquisition, Engine.start_acquisition]
  · cases hs : s.stream_saver with
    | none =>
      simp [Camera.start_acquisition, h, hs, Camera.setup_and_start]
    | some e0 =>
      simp [Camera.start_acquisition, h, hs, Camera.setup_and_start]

/-- C4 witness: the three conjuncts at the concrete states `sSeq` (running
Sequence), `sLive` (running Live) and `s0` (Idle). -/
theorem C4_start_acquisition_witness :
    Camera.start_acquisition sSeq 100 "outdir" = (sSeq, some CamErr.runtimeError) ∧
    (Camera.start_acquisition sLive 100 "outdir").2 = none ∧
    (Camera.start_acquisition sLive 100 "outdir").1.stream_mode =
      some StreamMode.acquisition ∧
    (Camera.start_acquisition s0 100 "outdir").2 = none ∧
    (Camera.start_acquisition s0 100 "outdir").1.stream_mode =
      some StreamMode.acquisition :=
  ⟨C4_start_acquisition_states.1 sSeq 100 "outdir" engSeq (by decide) (by decide),
   (C4_start_acquisition_states.2.1 sLive 100 "outdir" engLive (by decide) (by decide)).1,
   (C4_start_acquisition_states.2.1 sLive 100 "outdir" engLive (by decide) (by decide)).2.1,
   (C4_start_acquisition_states.2.2 s0 100 "outdir" (by decide)).1,
   (C4_start_acquisition_states.2.2 s0 100 "outdir" (by decide)).2⟩

/-- C5: the claim as stated is false on the code: calling `start_live` while
the Sequence session `sSeq` is running raises nothing — it returns with no
error and the state (engine included) unchanged, a silent no-op rather than
a surfaced rejection. -/
theorem C5_start_live_counterexample :
    Camera.start_live sSeq = (sSeq, none) := by
  decide

/-- C5 (amended): calling `start_live` while a Sequence session is running
(the engine reports the acquisition still active) is silently ignored: no
error is surfaced, no second session is started, and the state — engine
included — is unchanged. -/
theorem C5_start_live_silent (s : CamState) (e : Engine)
    (h1 : s.stream_mode = some StreamMode.acquisition)
    (h2 : s.stream_saver = some e) (h3 : e.active = true) :
    Camera.start_live s = (s, none) := by
  simp [Camera.start_live, Camera.check_acquisition, h1, h2,
    Engine.acquisition_status, h3]

/-- C5 witness: the amended theorem at the concrete running-Sequence state. -/
theorem C5_start_live_silent_witness :
    Camera.start_live sSeq = (sSeq, none) :=
  C5_start_live_silent sSeq engSeq (by decide) (by decide) (by decide)

/-- C6: the claim as stated is false on the code: closing the camera while
the Live session `sLive` is active leaves `__stream_mode` still "live" (the
state does not return to Idle and the session tag is not cleared); the
engine handle is dropped without any abort or join having been issued. -/
theorem C6_close_counterexample :
    (Camera.close sLive).stream_mode = some StreamMode.live ∧
    (Camera.close sLive).stream_saver = none := by
  decide

/-- C6 (amended): closing the camera while a session is active detaches the
engine handle and marks the camera closed (`handle = -1`, open flag down),
but performs no abort or join and leaves the stored stream-mode tag at its
active value — the state is not reset to Idle, and a subsequent
`check_acquisition` hits the missing engine handle (`AttributeError`,
modelled as `none`) instead of reporting an idle camera. -/
theorem C6_close_behaviour (s : CamState) (m : StreamMode)
    (h : s.stream_mode = some m) :
    (Camera.close s).stream_mode = some m ∧
    (Camera.close s).stream_saver = none ∧
    (Camera.close s).is_open = false ∧
    (Camera.close s).handle = -1 ∧
    Camera.check_acquisition (Camera.close s) = none := by
  simp [Camera.close, Camera.check_acquisition, h]

/-- C6 witness: the amended theorem at the concrete running-Live state. -/
theorem C6_close_behaviour_witness :
    (Camera.close sLive).stream_mode = some StreamMode.live ∧
    (Camera.close sLive).stream_saver = none ∧
    (Camera.close sLive).is_open = false ∧
    (Camera.close sLive).handle = -1 ∧
    Camera.check_acquisition (Camera.close sLive) = none :=
  C6_close_behaviour sLive StreamMode.live (by decide)


/-! ### VTM sequence capture -/

lemma vtm_exp_time_set_cases (s : CamState) (t : Nat) :
    Camera.vtm_exp_time_set s t = ({ s with vtm_exp_time := t }, none) ∨
    Camera.vtm_exp_time_set s t = (s, some CamErr.valueError) := by
  unfold Camera.vtm_exp_time_set
  split
  · exact Or.inl rfl
  · exact Or.inr rfl

lemma vtmNext_drop (tl : List Nat) (hne : tl ≠ []) (k : Nat) (hk : k ≤ tl.length) :
    Camera.vtmNext tl (tl.drop k) =
      if _h : k < tl.length then some (tl.getD k 0, tl.drop (k + 1))
      else some (tl.getD 0 0, tl.drop 1) := by
  split
  next h =>
    rw [List.drop_eq_getElem_cons h, List.getD_eq_getElem tl 0 h]
    rfl
  next h =>
    have hk' : k = tl.length := le_antisymm hk (le_of_not_lt h)
    rw [hk', List.drop_length]
    match tl, hne with
    | t :: rest, _ => rfl

lemma vtmLoop_exp_res (captureOk : Nat → Bool) (tl : List Nat) :
    ∀ (count i : Nat) (rem : List Nat) (s : CamState) (acc : List Nat),
      (Camera.vtmLoop captureOk tl i count rem s acc).1.exp_res = s.exp_res := by
  intro count
  induction count with
  | zero =>
    intro i rem s acc
    rfl
  | succ c ih =>
    intro i rem s acc
    unfold Camera.vtmLoop
    cases hnx : Camera.vtmNext tl rem with
    | none => rfl
    | some p =>
      obtain ⟨t, rest⟩ := p
      rcases vtm_exp_time_set_cases s t with h | h
      · simp only [h]
        split
        · exact ih (i + 1) rest _ (acc ++ [t])
        · rfl
      · simp only [h]

lemma vtmLoop_cyclic (captureOk : Nat → Bool) (tl : List Nat) (hne : tl ≠ [])
    (hvalid : ∀ t ∈ tl, t < 65536) (hok : ∀ i, captureOk i = true) :
    ∀ (count i k : Nat) (s : CamState) (acc : List Nat),
      k ≤ tl.length → k % tl.length = i % tl.length →
      (Camera.vtmLoop captureOk tl i count (tl.drop k) s acc).2.1 =
        acc ++ (List.range count).map (fun j => tl.getD ((i + j) % tl.length) 0) ∧
      (Camera.vtmLoop captureOk tl i count (tl.drop k) s acc).2.2 = none := by
  have hlen : 0 < tl.length := List.length_pos.mpr hne
  intro count
  induction count with
  | zero =>
    intro i k s acc _ _
    simp [Camera.vtmLoop]
  | succ c ih =>
    intro i k s acc hk hmod
    unfold Camera.vtmLoop
    rw [vtmNext_drop tl hne k hk]
    by_cases hklt : k < tl.length
    · rw [dif_pos hklt]
      have hget : tl.getD k 0 = tl.getD (i % tl.length) 0 := by
        rw [← hmod, Nat.mod_eq_of_lt hklt]
      have htmem : tl.getD k 0 ∈ tl := by
        rw [List.getD_eq_getElem tl 0 hklt]
        exact List.getElem_mem hklt
      have hset : Camera.vtm_exp_time_set s (tl.getD k 0) =
          ({ s with vtm_exp_time := tl.getD k 0 }, none) := by
        unfold Camera.vtm_exp_time_set
        rw [if_pos (hvalid _ htmem)]
      simp only [hset]
      rw [if_pos (hok i)]
      have hmod' : (k + 1) % tl.length = (i + 1) % tl.length := by
        rw [Nat.add_mod k 1, Nat.add_mod i 1, hmod]
      obtain ⟨h1, h2⟩ := ih (i + 1) (k + 1) { s with vtm_exp_time := tl.getD k 0 }
        (acc ++ [tl.getD k 0]) hklt hmod'
      refine ⟨?_, h2⟩
      rw [h1, List.range_succ_eq_map, List.map_cons, List.map_map]
      have hfun : ((fun j => tl.getD ((i + j) % tl.length) 0) ∘ Nat.succ) =
          (fun j => tl.getD ((i + 1 + j) % tl.length) 0) := by
        funext j
        simp only [Function.comp, Nat.succ_eq_add_one]
        have : i + (j + 1) = i + 1 + j := by omega
        rw [this]
      rw [hfun, hget]
      simp [List.append_assoc]
    · rw [dif_neg hklt]
      have hkeq : k = tl.length := le_antisymm hk (le_of_not_lt hklt)
      have hizero : i % tl.length = 0 := by
        rw [← hmod, hkeq, Nat.mod_self]
      have hget : tl.getD 0 0 = tl.getD (i % tl.length) 0 := by
        rw [hizero]
      have htmem : tl.getD 0 0 ∈ tl := by
        rw [List.getD_eq_getElem tl 0 hlen]
        exact List.getElem_mem hlen
      have hset : Camera.vtm_exp_time_set s (tl.getD 0 0) =
          ({ s with vtm_exp_time := tl.getD 0 0 }, none) := by
        unfold Camera.vtm_exp_time_set
        rw [if_pos (hvalid _ htmem)]
      simp only [hset]
      rw [if_pos (hok i)]
      have hmod' : 1 % tl.length = (i + 1) % tl.length := by
        rw [Nat.add_mod i 1, hizero, Nat.zero_add, Nat.mod_mod_of_dvd 1 dvd_rfl]
      obtain ⟨h1, h2⟩ := ih (i + 1) 1 { s with vtm_exp_time := tl.getD 0 0 }
        (acc ++ [tl.getD 0 0]) hlen hmod'
      refine ⟨?_, h2⟩
      rw [h1, List.range_succ_eq_map, List.map_cons, List.map_map]
      have hfun : ((fun j => tl.getD ((i + j) % tl.length) 0) ∘ Nat.succ) =
          (fun j => tl.getD ((i + 1 + j) % tl.length) 0) := by
        funext j
        simp only [Function.comp, Nat.succ_eq_add_one]
        have : i + (j + 1) = i + 1 + j := by omega
        rw [this]
      rw [hfun, hget]
      simp [List.append_assoc]


lemma exp_res_set_int_eq (env : CamEnv) (s : CamState) (r : Nat) :
    Camera.exp_res_set env s (PyArg.int r) =
      if r ∈ env.exp_resolutions.map (fun p => p.2) then ({ s with exp_res := r }, none)
      else (s, some CamErr.valueError) := rfl

/-- C8: for every non-empty, fully valid time list and every frame count, the
VTM capture sets the device exposure time of frame `j` to
`timeList[j mod len(timeList)]` — cycling back to the head when the iterator
is exhausted — immediately before issuing that frame's blocking capture: the
recorded per-capture exposure trace is exactly that cyclic sequence. -/
theorem C8_vtm_cyclic_exposures (captureOk : Nat → Bool) (env : CamEnv) (s : CamState)
    (tl : List Nat) (res n : Nat)
    (hne : tl ≠ []) (hvalid : ∀ t ∈ tl, t < 65536)
    (hres : res ∈ env.exp_resolutions.map (fun p => p.2))
    (hok : ∀ i, captureOk i = true) :
    (Camera.get_vtm_sequence captureOk env s tl res n).2.1 =
      (List.range n).map (fun j => tl.getD (j % tl.length) 0) := by
  have hall : (tl.all fun t => decide (t < 65536)) = true := by
    rw [List.all_eq_true]
    intro t ht
    exact decide_eq_true (hvalid t ht)
  obtain ⟨h1, h2⟩ := vtmLoop_cyclic captureOk tl hne hvalid hok n 0 0
    { s with exp_res := res } [] (Nat.zero_le _) rfl
  rw [show tl.drop 0 = tl from rfl] at h1 h2
  rcases hloop : Camera.vtmLoop captureOk tl 0 n tl { s with exp_res := res } []
    with ⟨s2, acc, er⟩
  rw [hloop] at h1 h2
  simp only at h1 h2
  subst h2
  simp only [Nat.zero_add, List.nil_append] at h1
  unfold Camera.get_vtm_sequence
  rw [hall, if_pos rfl]
  simp only [exp_res_set_int_eq, if_pos hres, hloop]
  split
  · exact h1
  · exact h1

/-- C8 witness: the spec's own example — `[10, 20, 30]` across 7 frames
issues exposure times `10, 20, 30, 10, 20, 30, 10`. -/
theorem C8_vtm_cyclic_witness :
    (Camera.get_vtm_sequence (fun _ => true) envA s0 [10, 20, 30] 1 7).2.1 =
      [10, 20, 30, 10, 20, 30, 10] :=
  (C8_vtm_cyclic_exposures (fun _ => true) envA s0 [10, 20, 30] 1 7 (by decide)
    (by decide) (by decide) (fun _ => rfl)).trans (by decide)

/-- Capture oracle failing exactly at the second frame (index 1), standing in
for `pvc.get_frame` raising a `RuntimeError` midway through the sequence. -/
def failAt1 : Nat → Bool := fun i => decide (i ≠ 1)

/-- C7: the claim as stated is false on the code: on a valid time list, if
the per-frame capture call fails midway (here at frame 1 of 3), the call
exits with the `RuntimeError` but the prior exposure-time resolution (0 on
`s0`) is NOT restored — there is no `try`/`finally` around the loop, so the
device is left at the requested resolution 1. -/
theorem C7_vtm_no_restore_counterexample :
    s0.exp_res = 0 ∧
    (Camera.get_vtm_sequence failAt1 envA s0 [10, 20, 30] 1 3).2.2 =
      some CamErr.runtimeError ∧
    (Camera.get_vtm_sequence failAt1 envA s0 [10, 20, 30] 1 3).1.exp_res = 1 := by
  decide

lemma get_vtm_sequence_eq (captureOk : Nat → Bool) (env : CamEnv) (s : CamState)
    (tl : List Nat) (res n : Nat) :
    Camera.get_vtm_sequence captureOk env s tl res n =
      if (tl.all fun t => decide (t < 65536)) = true then
        match Camera.exp_res_set env s (PyArg.int res) with
        | (s1, none) =>
          match Camera.vtmLoop captureOk tl 0 n tl s1 [] with
          | (s2, acc, none) =>
            match Camera.exp_res_set env s2 (PyArg.int s.exp_res) with
            | (s3, none) => (s3, acc, none)
            | (s3, some e) => (s3, acc, some e)
          | (s2, acc, some e) => (s2, acc, some e)
        | (s1, some e) => (s1, [], some e)
      else (s, [], some CamErr.valueError) := rfl

/-- C7 (amended): the VTM capture restores the prior exposure-time
resolution exactly when it returns without error; when a per-frame capture
call fails midway (the `RuntimeError` propagates out of the loop), the
restore is skipped and the device is left at the requested resolution. -/
theorem C7_vtm_res_restore :
    (∀ (captureOk : Nat → Bool) (env : CamEnv) (s : CamState) (tl : List Nat) (res n : Nat),
      (Camera.get_vtm_sequence captureOk env s tl res n).2.2 = none →
      (Camera.get_vtm_sequence captureOk env s tl res n).1.exp_res = s.exp_res) ∧
    (∀ (captureOk : Nat → Bool) (env : CamEnv) (s : CamState) (tl : List Nat) (res n : Nat),
      (Camera.get_vtm_sequence captureOk env s tl res n).2.2 = some CamErr.runtimeError →
      (Camera.get_vtm_sequence captureOk env s tl res n).1.exp_res = res) := by
  constructor
  · intro captureOk env s tl res n h
    rw [get_vtm_sequence_eq] at h ⊢
    by_cases hall : (tl.all fun t => decide (t < 65536)) = true
    · rw [if_pos hall] at h ⊢
      by_cases hres : res ∈ env.exp_resolutions.map (fun p => p.2)
      · simp only [exp_res_set_int_eq, if_pos hres] at h ⊢
        rcases hloop : Camera.vtmLoop captureOk tl 0 n tl { s with exp_res := res } []
          with ⟨s2, acc, er⟩
        simp only [hloop] at h ⊢
        cases er with
        | none =>
          by_cases hback : s.exp_res ∈ env.exp_resolutions.map (fun p => p.2)
          · simp only [exp_res_set_int_eq, if_pos hback] at h ⊢
          · simp only [exp_res_set_int_eq, if_neg hback] at h
            simp at h
        | some e =>
          simp at h
      · simp only [exp_res_set_int_eq, if_neg hres] at h
        simp at h
    · rw [if_neg hall] at h
      simp at h
  · intro captureOk env s tl res n h
    rw [get_vtm_sequence_eq] at h ⊢
    by_cases hall : (tl.all fun t => decide (t < 65536)) = true
    · rw [if_pos hall] at h ⊢
      by_cases hres : res ∈ env.exp_resolutions.map (fun p => p.2)
      · simp only [exp_res_set_int_eq, if_pos hres] at h ⊢
        rcases hloop : Camera.vtmLoop captureOk tl 0 n tl { s with exp_res := res } []
          with ⟨s2, acc, er⟩
        simp only [hloop] at h ⊢
        cases er with
        | none =>
          by_cases hback : s.exp_res ∈ env.exp_resolutions.map (fun p => p.2)
          · simp only [exp_res_set_int_eq, if_pos hback] at h
            simp at h
          · simp only [exp_res_set_int_eq, if_neg hback] at h
            simp at h
        | some e =>
          have hpres := vtmLoop_exp_res captureOk tl n 0 tl { s with exp_res := res } []
          rw [hloop] at hpres
          exact hpres
      · simp only [exp_res_set_int_eq, if_neg hres] at h
        simp at h
    · rw [if_neg hall] at h
      simp at h

/-- C7 witness: the amended theorem at a fully successful concrete run
(resolution restored to `s0`'s value 0) and at the concrete midway-failing
run (resolution left at the requested value 1). -/
theorem C7_vtm_res_restore_witness :
    (Camera.get_vtm_sequence (fun _ => true) envA s0 [10, 20, 30] 1 3).1.exp_res =
      s0.exp_res ∧
    (Camera.get_vtm_sequence failAt1 envA s0 [10, 20, 30] 1 3).1.exp_res = 1 :=
  ⟨C7_vtm_res_restore.1 (fun _ => true) envA s0 [10, 20, 30] 1 3 (by decide),
   C7_vtm_res_restore.2 failAt1 envA s0 [10, 20, 30] 1 3 (by decide)⟩

